import Mathlib

/-!
Shallow embedding of the two view components of this repository:
`src/zbase_rn_project/mobile-app/src/components/Button.tsx` (the `Button`
component) and the unnamed screen file (the `Home` component).  Rendering
is modelled as the construction of a render tree; React Native primitives
(`TouchableOpacity`, `View`, `Text`) become constructors of `RenderNode`.
Style props become a record of optional fields, one per style key that
appears in the source.
-/

/-- Observable application state, used to express what a press event can do.
A press handler, when wired, is a state transformer. -/
structure AppState where
  log : List String
deriving DecidableEq

/-- A tap handler is a transformer of observable state. -/
def Handler : Type := AppState → AppState

/-- The style record: one optional field per style key occurring in the
source files (`backgroundColor`, `borderRadius`, `padding`, `color` in
Button.tsx; `flex`, `justifyContent`, `alignItems`, `gap` in the Home
screen).  An absent field models a style key that the source does not set. -/
structure Style where
  backgroundColor : Option String := none
  borderRadius : Option Nat := none
  padding : Option Nat := none
  color : Option String := none
  flex : Option Nat := none
  justifyContent : Option String := none
  alignItems : Option String := none
  gap : Option Nat := none
deriving DecidableEq

/-- Render trees produced by the components.  `touchableOpacity` carries its
style, an optional press handler (the `onPress` prop) and its children;
`view` carries a style and children; `text` carries a style and its string
content. -/
inductive RenderNode : Type where
  | touchableOpacity (style : Style) (onPress : Option Handler)
      (children : List RenderNode)
  | view (style : Style) (children : List RenderNode)
  | text (style : Style) (content : String)

/-- Modelled from the spec: the color palette module `../styles/colors` is
imported by Button.tsx but is not part of the given source tree.  The spec
describes it as "a shared set of named color constants" with "a single
named color value" consumed by the button, so it is modelled as the
designated brand color together with the remaining named constants. -/
structure ColorPalette where
  colorBrand : String
  otherColors : List (String × String)
deriving DecidableEq

/-- Embedding of the `Button` component of Button.tsx.  The palette is
imported and read at render time; it is passed explicitly here.  The JSX returns
a `TouchableOpacity` styled with the brand background color, border radius
24 and padding 12, with no `onPress` prop, containing a single `Text`
child styled white whose content is the `label` prop. -/
def Button (colorPalette : ColorPalette) (label : String) : RenderNode :=
  RenderNode.touchableOpacity
    { backgroundColor := some colorPalette.colorBrand
      borderRadius := some 24
      padding := some 12 }
    none
    [RenderNode.text { color := some "white" } label]

/-- Embedding of the `styles` object created by `StyleSheet.create` in the
Home screen file: a single `container` entry. -/
structure HomeStyles where
  container : Style
deriving DecidableEq

/-- The `styles` constant of the Home screen file. -/
def styles : HomeStyles :=
  { container :=
      { flex := some 1
        justifyContent := some "center"
        alignItems := some "center"
        gap := some 10 } }

/-- Embedding of the `Home` component: a function of no arguments (modelled
as `Unit`) returning a `View` styled with `styles.container` containing a
single `Text` child (no style prop) with content "Hello Universe". -/
def Home (_u : Unit) : RenderNode :=
  RenderNode.view styles.container
    [RenderNode.text {} "Hello Universe"]

mutual
/-- The visible text of a render tree: the concatenation, in order, of the
content of every `text` node. -/
def visibleText : RenderNode → String
  | RenderNode.text _ s => s
  | RenderNode.touchableOpacity _ _ cs => visibleTextList cs
  | RenderNode.view _ cs => visibleTextList cs

/-- The visible text of a list of render trees, concatenated in order. -/
def visibleTextList : List RenderNode → String
  | [] => ""
  | c :: cs => visibleText c ++ visibleTextList cs
end

/-- The style of the root element of a render tree. -/
def rootStyle : RenderNode → Style
  | RenderNode.touchableOpacity s _ _ => s
  | RenderNode.view s _ => s
  | RenderNode.text s _ => s

/-- The `onPress` handler of the root element, when the root is a
`TouchableOpacity`; other elements take no press handler. -/
def rootOnPress : RenderNode → Option Handler
  | RenderNode.touchableOpacity _ h _ => h
  | RenderNode.view _ _ => none
  | RenderNode.text _ _ => none

/-- The children of the root element of a render tree. -/
def childrenOf : RenderNode → List RenderNode
  | RenderNode.touchableOpacity _ _ cs => cs
  | RenderNode.view _ cs => cs
  | RenderNode.text _ _ => []

/-- Whether the root element is a `TouchableOpacity`. -/
def isTouchableOpacity : RenderNode → Bool
  | RenderNode.touchableOpacity _ _ _ => true
  | RenderNode.view _ _ => false
  | RenderNode.text _ _ => false

/-- Delivering a press event to a render tree: the root handler runs on the
observable state when one is wired, and the state is unchanged otherwise. -/
def press (n : RenderNode) (s : AppState) : AppState :=
  match rootOnPress n with
  | some h => h s
  | none => s

/-- C1: for every label string, including the empty one, the button renders
exactly that string as its visible text, with no transformation. -/
theorem button_renders_label_verbatim (p : ColorPalette) (label : String) :
    visibleText (Button p label) = label := by
  simp [Button, visibleText, visibleTextList]

/-- C2: the Home screen is a constant view function: every invocation yields
the identical render tree, whose visible text is "Hello Universe". -/
theorem home_constant_hello_universe :
    (∀ u v : Unit, Home u = Home v) ∧
      visibleText (Home ()) = "Hello Universe" :=
  ⟨fun _ _ => rfl, rfl⟩

/-- C3: the background color of the TouchableOpacity rendered by the button
is the palette brand color. -/
theorem button_background_is_brand (p : ColorPalette) (label : String) :
    (rootStyle (Button p label)).backgroundColor = some p.colorBrand :=
  rfl

/-- C4: rendering is pure and deterministic: Button on equal labels gives
equal render trees, and Home gives equal render trees on every pair of
invocations. -/
theorem render_deterministic :
    (∀ (p : ColorPalette) (l1 l2 : String), l1 = l2 →
        Button p l1 = Button p l2) ∧
      (∀ u v : Unit, Home u = Home v) :=
  ⟨fun _ _ _ h => by rw [h], fun _ _ => rfl⟩

/-- Witness for C4 at a concrete palette and label. -/
theorem render_deterministic_witness :
    Button ⟨"#3B5", []⟩ "Go" = Button ⟨"#3B5", []⟩ "Go" ∧
      Home () = Home () :=
  ⟨render_deterministic.1 ⟨"#3B5", []⟩ "Go" "Go" rfl,
    render_deterministic.2 () ()⟩

/-- C5: for every label, the button has rounded corners (a fixed nonzero
border radius, namely 24), fixed padding 12, and its single Text child
carries the style color "white". -/
theorem button_fixed_styling (p : ColorPalette) (label : String) :
    ∃ r : Nat, (rootStyle (Button p label)).borderRadius = some r ∧ r ≠ 0 ∧
      (rootStyle (Button p label)).padding = some 12 ∧
      (childrenOf (Button p label)).map (fun c => (rootStyle c).color)
        = [some "white"] :=
  ⟨24, rfl, by decide, rfl, rfl⟩

/-- C6: the button wires no tap handler: the rendered TouchableOpacity has
no onPress callback, and delivering a press leaves every observable state
unchanged. -/
theorem button_press_is_noop (p : ColorPalette) (label : String)
    (s : AppState) :
    rootOnPress (Button p label) = none ∧ press (Button p label) s = s :=
  ⟨rfl, rfl⟩

/-- C7: the Home root container style has flex 1, justifyContent "center"
and alignItems "center". -/
theorem home_container_centers (u : Unit) :
    (rootStyle (Home u)).flex = some 1 ∧
      (rootStyle (Home u)).justifyContent = some "center" ∧
      (rootStyle (Home u)).alignItems = some "center" :=
  ⟨rfl, rfl, rfl⟩

/-- C8: both render functions are total: every input evaluates to a render
tree.  Totality and termination are inherent: `Button` and `Home` are
non-recursive total Lean definitions, so every application reduces to a
value. -/
theorem render_functions_total (p : ColorPalette) (label : String)
    (u : Unit) :
    ∃ b h : RenderNode, Button p label = b ∧ Home u = h :=
  ⟨Button p label, Home u, rfl, rfl⟩

/-- C9: noninterference for the button: its output depends only on the label
and the palette brand color; two palettes agreeing on the brand color give
equal render trees even if all other palette entries differ. -/
theorem button_noninterference (p1 p2 : ColorPalette) (label : String)
    (h : p1.colorBrand = p2.colorBrand) :
    Button p1 label = Button p2 label := by
  simp [Button, h]

/-- Witness for C9: palettes differing in every entry but the brand color. -/
theorem button_noninterference_witness :
    Button ⟨"#00F", []⟩ "Go" = Button ⟨"#00F", [("bg", "#FFF")]⟩ "Go" :=
  button_noninterference ⟨"#00F", []⟩ ⟨"#00F", [("bg", "#FFF")]⟩ "Go" rfl

/-- C10: structural invariant of the button: the root is a TouchableOpacity
with exactly one child, a Text element whose sole content is the label. -/
theorem button_structure (p : ColorPalette) (label : String) :
    isTouchableOpacity (Button p label) = true ∧
      (childrenOf (Button p label)).length = 1 ∧
      ∃ ts : Style, childrenOf (Button p label)
        = [RenderNode.text ts label] :=
  ⟨rfl, rfl, ⟨{ color := some "white" }, rfl⟩⟩
